import Mathlib

/-!
Verification development for the UniBio front end.

The repository is a TypeScript/React front end for a molecular-biology
workbench.  This file gives a shallow embedding, in Lean 4, of the parts of
the code that the verified properties talk about:

* the client-side sequence sanitizer attached to every sequence input field
  (PrimerDesign.tsx, GibsonAssembly.tsx),
* the sliding-window GC-content plot (GCContentPlot),
* the pie/donut chart slice computation (PieChart),
* the tool-call chart dispatcher (ChartRenderer),
* the submit handlers of the tool panels (PrimerDesign,
  RestrictionAnalyzer, NCBISearch, PaperSearch, GibsonAssembly), and
* the chat sidebar send handler (AgentChat: handleSendMessage and
  historyForApi).

Modelling conventions.  JavaScript strings that are inspected character by
character (DNA sequences) are embedded as lists of UTF-16 code units
(List Nat); strings that are only carried around as data are embedded as
Lean String.  JavaScript numbers are embedded as rationals (the values the
code computes never leave the exactly-representable range relevant to the
claims).  The JavaScript upper-casing and the case-insensitive regex
classes are modelled on the ASCII range, which is the range the IUPAC
alphabet and the DNA data live in.  Asynchronous request/response cycles
are embedded as pure state-transition functions: a handler takes the panel
state before the click together with the outcome of the HTTP call (either
a parsed response or a rejected promise carrying an error message) and
returns the final panel state plus the request that was issued, if any.
React setState calls become functional record updates.
-/

namespace UniBio

/-- Outcome of an awaited HTTP call: either the promise resolved with a
parsed response, or it rejected and the catch block received an error
whose message is the given string (the empty string models a missing
message, which is falsy in JavaScript). -/
inductive ApiOutcome (α : Type) : Type where
  | ok (response : α)
  | thrown (message : String)

/-- JavaScript truthiness-based defaulting for strings: the expression
s || d evaluates to d when s is the empty string and to s otherwise. -/
def jsOrS (s : String) (d : String) : String :=
  if s = "" then d else s

/-- JavaScript truthiness-based defaulting for an optional string field:
o || d evaluates to d when the field is absent or the empty string. -/
def jsOr (o : Option String) (d : String) : String :=
  match o with
  | none => d
  | some s => jsOrS s d

/-- JavaScript String.prototype.includes, used by the chat error
classifier.  A string contains the pattern exactly when splitting on the
pattern yields more than one piece. -/
def jsIncludes (s pat : String) : Bool :=
  decide (1 < (s.splitOn pat).length)

/-- JavaScript String.prototype.trim: strip leading and trailing
whitespace.  Embedded structurally over the character list of the
string. -/
def jsTrim (s : String) : String :=
  ⟨(((s.data.dropWhile Char.isWhitespace).reverse.dropWhile Char.isWhitespace).reverse)⟩

/-- JavaScript String.prototype.toUpperCase restricted to the ASCII range,
acting on a UTF-16 code unit: lower-case ASCII letters (codes 97 to 122)
are shifted down by 32, every other code unit is unchanged. -/
def jsToUpperCode (c : Nat) : Nat :=
  if 97 ≤ c ∧ c ≤ 122 then c - 32 else c

/-- The code units of the IUPAC nucleotide alphabet ATGCNRYSWKMBDHV, the
character class of the sanitizing regex in the sequence input fields. -/
def iupacCodes : List Nat :=
  ['A', 'T', 'G', 'C', 'N', 'R', 'Y', 'S', 'W', 'K', 'M', 'B', 'D', 'H', 'V'].map Char.toNat

/-- The client-side sequence sanitizer attached to every sequence input
field, from PrimerDesign.tsx line 78 and GibsonAssembly.tsx lines 75 and

    e.target.value.toUpperCase().replace(/[^ATGCNRYSWKMBDHV]/gi, brackets)

The input is upper-cased first; then every character that does not
case-insensitively belong to the IUPAC class is removed (the
case-insensitive test canonicalizes the character by upper-casing it). -/
def sanitizeSequence (s : List Nat) : List Nat :=
  (s.map jsToUpperCode).filter (fun c => iupacCodes.contains (jsToUpperCode c))

/-- One point of the sliding-window GC plot (GCContentPlot, part_004
lines 22 to 28): for window start i the point sits at position
i + windowSize / 2 and carries the GC percentage of the window
sequence.slice(i, i + windowSize).  The regex [GC]/gi counts upper- and
lower-case G and C. -/
def gcWindowPoint (sequence : List Nat) (windowSize : Nat) (i : Nat) : ℚ × ℚ :=
  let window := (sequence.drop i).take windowSize
  let gcCount :=
    (window.filter (fun c =>
      c = Char.toNat 'G' ∨ c = Char.toNat 'g' ∨ c = Char.toNat 'C' ∨ c = Char.toNat 'c')).length
  ((i : ℚ) + (windowSize : ℚ) / 2, ((gcCount : ℚ) / (windowSize : ℚ)) * 100)

/-- The plot loop of GCContentPlot:

    for (let i = 0; i <= sequence.length - windowSize; i += step)

unrolled as a recursion on the loop counter.  The step is positive for
every call the component makes (it is max(1, floor(windowSize / 4))); the
positivity hypothesis makes the loop terminate. -/
def gcLoop (sequence : List Nat) (windowSize : Nat) (step : Nat) (hstep : 0 < step)
    (i : Nat) : List (ℚ × ℚ) :=
  if _h : i ≤ sequence.length - windowSize then
    gcWindowPoint sequence windowSize i :: gcLoop sequence windowSize step hstep (i + step)
  else []
termination_by sequence.length - windowSize + 1 - i
decreasing_by omega

/-- The data points of the sliding-window GC plot (GCContentPlot,
part_004).  The component returns null, hence draws no points, when the
sequence is falsy (empty) or shorter than the window; otherwise it slides
a window of the given size in steps of max(1, floor(windowSize / 4)). -/
def gcContentPoints (sequence : List Nat) (windowSize : Nat) : List (ℚ × ℚ) :=
  if sequence = [] ∨ sequence.length < windowSize then []
  else
    gcLoop sequence windowSize (max 1 (windowSize / 4))
      (lt_of_lt_of_le one_pos (le_max_left 1 (windowSize / 4))) 0

/-- One input datum of the pie chart (PieChart.tsx): a labeled numeric
value with a color. -/
structure PieDatum where
  label : String
  value : ℚ
  color : String
deriving Repr, DecidableEq

/-- One computed slice of the pie chart: the percentage and angular extent
of the slice together with the label-suppression flag
showLabel = percentage > 5 (PieChart.tsx lines 36 to 94).  The pixel
geometry (the trigonometric path of the slice) is determined by the two
angles and is not needed by any verified property, so it is not carried
here. -/
structure PieSlice where
  label : String
  value : ℚ
  color : String
  percentage : ℚ
  startAngle : ℚ
  endAngle : ℚ
  showLabel : Bool
deriving Repr, DecidableEq

/-- The slice-accumulation pass of PieChart.tsx (data.map with the running
currentAngle, lines 34 to 95), parametrized by the precomputed total. -/
def pieSlicesFrom (total : ℚ) : ℚ → List PieDatum → List PieSlice
  | _, [] => []
  | currentAngle, item :: rest =>
      let percentage := item.value / total * 100
      let angle := item.value / total * 360
      { label := item.label
        value := item.value
        color := item.color
        percentage := percentage
        startAngle := currentAngle
        endAngle := currentAngle + angle
        showLabel := decide (5 < percentage) } ::
        pieSlicesFrom total (currentAngle + angle) rest

/-- The PieChart component (PieChart.tsx lines 24 to 95).  It returns null
(none) when the data list is empty or the value total is zero; otherwise
it computes the slices starting at the top, -90 degrees. -/
def pieChartSlices (data : List PieDatum) : Option (List PieSlice) :=
  if data.length = 0 then none
  else
    let total := (data.map PieDatum.value).sum
    if total = 0 then none
    else some (pieSlicesFrom total (-90) data)

/-- A primer pair as returned by the design-primers endpoint
(part_000, interface PrimerPair). -/
structure PrimerPair where
  pair_id : Nat
  left_sequence : String
  right_sequence : String
  left_tm : ℚ
  right_tm : ℚ
  left_gc : ℚ
  right_gc : ℚ
  product_size : Nat
  penalty : ℚ
deriving Repr, DecidableEq

/-- A restriction enzyme row as returned by the restriction-sites endpoint
(part_000, interface RestrictionEnzyme). -/
structure RestrictionEnzyme where
  enzyme_name : String
  cut_count : Nat
  cut_positions : List Nat
deriving Repr, DecidableEq

/-- The fields of an untyped tool-call result record that the chart
dispatcher ChartRenderer (part_006) inspects.  The record arrives as
Record(string, any); a field is an Option when the dispatcher guards on
its presence.  The error field records the truthiness of result.error. -/
structure FCResult where
  error : Bool := false
  primer_pairs : Option (List PrimerPair) := none
  enzymes : Option (List RestrictionEnzyme) := none
  sequence : Option (List Nat) := none
  tm : Option ℚ := none
  hairpin_tm : Option ℚ := none
  homodimer_tm : Option ℚ := none
deriving Repr, DecidableEq

/-- One backend tool invocation surfaced to the chat UI (part_000,
interface FunctionCall).  The arguments map is never read by the
dispatcher and is carried as an opaque association list.  The result is
none when the runtime record is absent (the !result guard). -/
structure FunctionCall where
  function : String
  arguments : List (String × String) := []
  result : Option FCResult := none
deriving Repr, DecidableEq

/-- One bar of a BarChart as parametrized by ChartRenderer: a label, a
value, a color, and in grouped mode a secondary value and color. -/
structure BarDatum where
  label : String
  value : ℚ
  color : String
  secondaryValue : Option ℚ := none
  secondaryColor : Option String := none
deriving Repr, DecidableEq

/-- A chart emitted by the dispatcher, identified by the chart primitive
used and the props ChartRenderer passes to it. -/
inductive Chart : Type where
  | bar (title : String) (yLabel : String) (grouped : Bool) (data : List BarDatum)
  | pie (title : String) (data : List PieDatum)
  | gcPlot (title : String) (sequence : List Nat) (windowSize : Nat)
deriving Repr, DecidableEq

/-- JavaScript comparison (x > 40) where x may be undefined: undefined
compares false.  Used for the risk coloring in the analyze-primer chart. -/
def jsGtOpt (x : Option ℚ) (bound : ℚ) : Bool :=
  match x with
  | none => false
  | some v => decide (bound < v)

/-- The bar built for one primer pair in the design-primers chart
(part_006 lines 37 to 43). -/
def primerTmBar (pair : PrimerPair) : BarDatum :=
  { label := "#" ++ toString (pair.pair_id + 1)
    value := pair.left_tm
    color := "#0d9488"
    secondaryValue := some pair.right_tm
    secondaryColor := some "#64748b" }

/-- The bar built for one enzyme in the cut-frequency chart (part_006
lines 60 to 64): single cutters are green, the rest amber. -/
def cutFrequencyBar (e : RestrictionEnzyme) : BarDatum :=
  { label := e.enzyme_name
    value := (e.cut_count : ℚ)
    color := if e.cut_count = 1 then "#22c55e" else "#f59e0b" }

/-- Case-insensitive count of one upper-case nucleotide code in a
sequence, as computed by match with an /i regex in part_006 lines 75
to 78 (the lower-case variant sits 32 code points above). -/
def countNucleotide (seq : List Nat) (upper : Nat) : Nat :=
  (seq.filter (fun c => c = upper ∨ c = upper + 32)).length

/-- The charts the dispatcher emits for a single function call
(ChartRenderer, part_006 lines 21 to 131).  Calls with an absent result
or a truthy error field are skipped; the switch recognizes exactly the
four function names design_primers, find_restriction_sites,
fetch_ncbi_sequence and analyze_primer, and every other name falls
through without a chart. -/
def chartsFor (fc : FunctionCall) : List Chart :=
  match fc.result with
  | none => []
  | some result =>
    if result.error then []
    else
      match fc.function with
      | "design_primers" =>
        match result.primer_pairs with
        | some pairs =>
          if 0 < pairs.length then
            [Chart.bar "Primer Tm Comparison" "Tm (°C)" true ((pairs.take 5).map primerTmBar)]
          else []
        | none => []
      | "find_restriction_sites" =>
        match result.enzymes with
        | some enzymes =>
          if 0 < enzymes.length then
            [Chart.bar "Cut Frequency" "Cuts" false ((enzymes.take 8).map cutFrequencyBar)]
          else []
        | none => []
      | "fetch_ncbi_sequence" =>
        match result.sequence with
        | some seq =>
          if 20 < seq.length then
            Chart.pie "Nucleotide Composition"
              [ { label := "A", value := (countNucleotide seq (Char.toNat 'A') : ℚ), color := "#22c55e" }
              , { label := "T", value := (countNucleotide seq (Char.toNat 'T') : ℚ), color := "#ef4444" }
              , { label := "G", value := (countNucleotide seq (Char.toNat 'G') : ℚ), color := "#3b82f6" }
              , { label := "C", value := (countNucleotide seq (Char.toNat 'C') : ℚ), color := "#f59e0b" } ] ::
            (if 100 < seq.length then
              [Chart.gcPlot "GC Content" seq (min 50 (seq.length / 5))]
            else [])
          else []
        | none => []
      | "analyze_primer" =>
        match result.tm with
        | some tm =>
          [Chart.bar "Primer Thermodynamics" "Temperature (°C)" false
            [ { label := "Tm", value := tm, color := "#0d9488" }
            , { label := "Hairpin", value := (result.hairpin_tm.getD 0)
              , color := if jsGtOpt result.hairpin_tm 40 then "#ef4444" else "#64748b" }
            , { label := "Homodimer", value := (result.homodimer_tm.getD 0)
              , color := if jsGtOpt result.homodimer_tm 40 then "#ef4444" else "#64748b" } ]]
        | none => []
      | _ => []

/-- The full chart list the dispatcher renders for an ordered list of
function calls (ChartRenderer iterates the calls in order and
concatenates the charts each one contributes). -/
def chartRendererCharts (functionCalls : List FunctionCall) : List Chart :=
  (functionCalls.map chartsFor).flatten

namespace PrimerDesignPanel

/-- The design-primers response consumed by the panel (part_000,
interface PrimerDesignResponse; the unread raw_output field is
omitted). -/
structure Response where
  success : Bool
  primer_pairs : List PrimerPair
  message : Option String := none
deriving Repr, DecidableEq

/-- The request body built by handleDesignPrimers (PrimerDesign.tsx
lines 36 to 42). -/
structure Request where
  sequence : List Nat
  min_tm : ℚ
  max_tm : ℚ
  prod_min : ℤ
  prod_max : ℤ
deriving Repr, DecidableEq

/-- The component state of the Primer Design panel: the form data read by
the handler plus the useState cells it writes (PrimerDesign.tsx lines 8
to 14). -/
structure State where
  sequence : List Nat
  optimalTm : ℚ
  productSizeMin : ℤ
  productSizeMax : ℤ
  isLoading : Bool := false
  error : Option String := none
  results : List PrimerPair := []
  resultMessage : Option String := none
deriving Repr, DecidableEq

/-- The submit handler handleDesignPrimers (PrimerDesign.tsx lines 24 to
55) as a state transition.  If the sequence is falsy or shorter than 50
the handler sets the validation error and returns without a request.
Otherwise it clears error, results and message, issues the request, and
applies the outcome: a successful response installs the new results and a
message, an unsuccessful response or a rejected promise installs an error
message; the finally block resets isLoading. -/
def handleDesignPrimers (st : State) (outcome : ApiOutcome Response) :
    State × Option Request :=
  if st.sequence = [] ∨ st.sequence.length < 50 then
    ({ st with error := some "Sequence must be at least 50 base pairs" }, none)
  else
    let cleared : State :=
      { st with isLoading := true, error := none, results := [], resultMessage := none }
    let req : Request :=
      { sequence := st.sequence
        min_tm := st.optimalTm - 3
        max_tm := st.optimalTm + 3
        prod_min := st.productSizeMin
        prod_max := st.productSizeMax }
    let final : State :=
      match outcome with
      | .ok r =>
        if r.success then
          { cleared with
              results := r.primer_pairs
              resultMessage := some (jsOr r.message
                ("Found " ++ toString r.primer_pairs.length ++ " primer pair(s)")) }
        else
          { cleared with
              error := some (jsOr r.message
                "No suitable primers found. Try adjusting parameters.") }
      | .thrown m =>
        { cleared with error := some (jsOrS m "Failed to design primers") }
    ({ final with isLoading := false }, some req)

end PrimerDesignPanel

namespace RestrictionPanel

/-- The restriction-sites response consumed by the panel (part_000,
interface RestrictionSiteResponse). -/
structure Response where
  total_enzymes_found : Nat
  enzymes : List RestrictionEnzyme
  message : Option String := none
deriving Repr, DecidableEq

/-- The request of the restriction-site search: the sequence to scan. -/
structure Request where
  sequence : List Nat
deriving Repr, DecidableEq

/-- The component state of the Restriction Analyzer panel
(GibsonAssembly.tsx, RestrictionAnalyzer section, lines 283 to 290). -/
structure State where
  sequence : List Nat
  isLoading : Bool := false
  error : Option String := none
  results : List RestrictionEnzyme := []
  resultMessage : Option String := none
deriving Repr, DecidableEq

/-- The submit handler handleFindSites (GibsonAssembly.tsx,
RestrictionAnalyzer section, lines 299 to 318) as a state transition.
If the sequence is falsy or shorter than 6 the handler sets the
validation error and returns without a request.  Otherwise it clears
error and results (the result message is left as is here; it is cleared
on parameter change instead), issues the request, and applies the
outcome: a resolved response installs the enzymes and a message, a
rejected promise installs an error message; the finally block resets
isLoading. -/
def handleFindSites (st : State) (outcome : ApiOutcome Response) :
    State × Option Request :=
  if st.sequence = [] ∨ st.sequence.length < 6 then
    ({ st with error := some "Sequence must be at least 6 base pairs" }, none)
  else
    let cleared : State := { st with isLoading := true, error := none, results := [] }
    let final : State :=
      match outcome with
      | .ok r =>
        { cleared with
            results := r.enzymes
            resultMessage := some (jsOr r.message
              ("Found " ++ toString r.total_enzymes_found ++ " enzyme(s)")) }
      | .thrown m =>
        { cleared with error := some (jsOrS m "Failed to analyze restriction sites") }
    ({ final with isLoading := false }, some { sequence := st.sequence })

end RestrictionPanel

namespace NCBISearchPanel

/-- An NCBI search hit (part_000, interface NCBISearchResult). -/
structure SearchResult where
  accession : String
  title : String
  id : String
  length : Nat
deriving Repr, DecidableEq

/-- The NCBI search response (part_000, interface NCBISearchResponse). -/
structure Response where
  success : Bool
  results : List SearchResult
  message : Option String := none
deriving Repr, DecidableEq

/-- A fetched NCBI record (part_000, interface NCBIFetchResponse). -/
structure FetchResponse where
  success : Bool
  accession : String
  description : String
  sequence : String
  length : Nat
  message : Option String := none
deriving Repr, DecidableEq

/-- The request of the NCBI search (query and retmax). -/
structure Request where
  query : String
  retmax : Nat
deriving Repr, DecidableEq

/-- The component state of the NCBI Search panel (AgentChat.tsx, NCBISearch
section, lines 269 to 278). -/
structure State where
  query : String
  maxResults : Nat
  isSearching : Bool := false
  isFetching : Option String := none
  error : Option String := none
  searchResults : List SearchResult := []
  fetchedSequence : Option FetchResponse := none
deriving Repr, DecidableEq

/-- The search submit handler handleSearch (AgentChat.tsx lines 280 to
306) as a state transition.  A blank query sets a validation error and
issues no request; otherwise the handler clears error, search results and
the fetched sequence, issues the request, and applies the outcome:
success installs the results (adding a no-results error when the list is
empty), an unsuccessful response or a rejected promise installs an error
message; the finally block resets isSearching. -/
def handleSearch (st : State) (outcome : ApiOutcome Response) :
    State × Option Request :=
  if jsTrim st.query = "" then
    ({ st with error := some "Please enter a search query" }, none)
  else
    let cleared : State :=
      { st with isSearching := true, error := none, searchResults := [], fetchedSequence := none }
    let final : State :=
      match outcome with
      | .ok r =>
        if r.success then
          let withResults := { cleared with searchResults := r.results }
          if r.results.length = 0 then
            { withResults with error := some "No results found. Try a different search term." }
          else withResults
        else
          { cleared with error := some (jsOr r.message "Search failed") }
      | .thrown m =>
        { cleared with error := some (jsOrS m "Failed to search NCBI") }
    ({ final with isSearching := false }, some { query := st.query, retmax := st.maxResults })

end NCBISearchPanel

namespace PaperSearchPanel

/-- A PubMed search hit (part_000, interface PaperSearchResult). -/
structure SearchResult where
  pmid : String
  title : String
  authors : String
  journal : String
  year : String
  abstract_preview : String
  doi : String
  pubmed_url : String
deriving Repr, DecidableEq

/-- The paper search response (part_000, interface PaperSearchResponse). -/
structure Response where
  success : Bool
  results : List SearchResult
  total_count : Option ℤ := none
  message : Option String := none
deriving Repr, DecidableEq

/-- The request of the paper search (query, max results, sort order). -/
structure Request where
  query : String
  maxResults : Nat
  sort : String
deriving Repr, DecidableEq

/-- The component state of the Paper Search panel (AgentChat.tsx,
PaperSearch section, lines 605 to 614).  The per-pmid detail cache is an
association list. -/
structure State where
  query : String
  maxResults : Nat
  sort : String
  isLoading : Bool := false
  error : Option String := none
  results : List SearchResult := []
  totalCount : Option ℤ := none
  resultMessage : Option String := none
  expandedPaper : Option String := none
  paperDetails : List (String × String) := []
deriving Repr, DecidableEq

/-- The search submit handler handleSearch (AgentChat.tsx lines 621 to
656) as a state transition.  A blank query sets a validation error and
issues no request; otherwise the handler clears error, results, count,
message, expansion and the detail cache, issues the request, and applies
the outcome: success installs results, count and message, an unsuccessful
response or a rejected promise installs an error message; the finally
block resets isLoading. -/
def handleSearch (st : State) (outcome : ApiOutcome Response) :
    State × Option Request :=
  if jsTrim st.query = "" then
    ({ st with error := some "Please enter a search query" }, none)
  else
    let cleared : State :=
      { st with
          isLoading := true, error := none, results := [], totalCount := none,
          resultMessage := none, expandedPaper := none, paperDetails := [] }
    let final : State :=
      match outcome with
      | .ok r =>
        if r.success then
          { cleared with
              results := r.results
              totalCount := r.total_count
              resultMessage := some (jsOr r.message
                ("Found " ++ toString r.results.length ++ " paper(s)")) }
        else
          { cleared with
              error := some (jsOr r.message "No papers found. Try a different search query.") }
      | .thrown m =>
        { cleared with error := some (jsOrS m "Failed to search papers") }
    ({ final with isLoading := false },
      some { query := st.query, maxResults := st.maxResults, sort := st.sort })

end PaperSearchPanel

namespace GibsonPanel

/-- The Gibson design response (part_000, interface
GibsonAssemblyResponse). -/
structure Response where
  forward_primer : String
  reverse_primer : String
  overlap_length : Nat
  vector_overlap_fwd : String
  vector_overlap_rev : String
  insert_binding_fwd : String
  insert_binding_rev : String
  message : Option String := none
deriving Repr, DecidableEq

/-- The request body built by handleDesignPrimers (GibsonAssembly.tsx
lines 35 to 39). -/
structure Request where
  vector_seq : List Nat
  insert_seq : List Nat
  overlap_length : Nat
deriving Repr, DecidableEq

/-- The component state of the Gibson Assembly panel (GibsonAssembly.tsx
lines 11 to 18). -/
structure State where
  vectorSeq : List Nat
  insertSeq : List Nat
  overlapLength : Nat
  isLoading : Bool := false
  error : Option String := none
  result : Option Response := none
  copiedField : Option String := none
deriving Repr, DecidableEq

/-- The submit handler handleDesignPrimers (GibsonAssembly.tsx lines 20
to 46) as a state transition.  A vector or insert shorter than 20 sets a
validation error and issues no request; otherwise the handler clears
error and result, issues the request, and applies the outcome: a resolved
response is installed as the result, a rejected promise installs an error
message; the finally block resets isLoading. -/
def handleDesignPrimers (st : State) (outcome : ApiOutcome Response) :
    State × Option Request :=
  if st.vectorSeq = [] ∨ st.vectorSeq.length < 20 then
    ({ st with error := some "Vector sequence must be at least 20 base pairs" }, none)
  else if st.insertSeq = [] ∨ st.insertSeq.length < 20 then
    ({ st with error := some "Insert sequence must be at least 20 base pairs" }, none)
  else
    let cleared : State := { st with isLoading := true, error := none, result := none }
    let final : State :=
      match outcome with
      | .ok r => { cleared with result := some r }
      | .thrown m =>
        { cleared with error := some (jsOrS m "Failed to design Gibson assembly primers") }
    ({ final with isLoading := false },
      some { vector_seq := st.vectorSeq, insert_seq := st.insertSeq,
             overlap_length := st.overlapLength })

end GibsonPanel

namespace Chat

/-- The role of a chat message (part_009, interface ChatMessage). -/
inductive Role : Type where
  | user
  | model
deriving Repr, DecidableEq

/-- A chat message as kept in the sidebar state (part_009, interface
ChatMessage).  The optional isToolCall flag is embedded as a Bool,
undefined being falsy. -/
structure ChatMessage where
  id : String
  role : Role
  text : String
  isToolCall : Bool := false
deriving Repr, DecidableEq

/-- A history entry sent to the chat endpoint: the role and text
projection of a message. -/
structure HistoryEntry where
  role : Role
  text : String
deriving Repr, DecidableEq

/-- A function call reported by the chat endpoint, as dispatched on by
the chart renderer. -/
abbrev ChatFunctionCall := FunctionCall

/-- The chat endpoint response (part_000, interface ChatResponse; the
model and iterations fields are not read by the handler). -/
structure ChatResponse where
  success : Bool
  response : String
  function_calls : List ChatFunctionCall
  error : Option String := none
deriving Repr, DecidableEq

/-- The request the handler sends to the chat endpoint: the current input
together with the prepared history. -/
structure ChatRequest where
  message : String
  history : List HistoryEntry
deriving Repr, DecidableEq

/-- The chat sidebar state touched by handleSendMessage (part_001
lines 12 to 24). -/
structure State where
  messages : List ChatMessage
  input : String
  isThinking : Bool := false
  isAgentProcessing : Bool := false
deriving Repr, DecidableEq

/-- The history prepared for the chat API (part_001 lines 46 to 48):
messages flagged as tool calls and the message with id welcome are
filtered out, and the survivors are projected to role and text. -/
def historyForApi (msgs : List ChatMessage) : List HistoryEntry :=
  (msgs.filter (fun m => !m.isToolCall && m.id ≠ "welcome")).map
    (fun m => { role := m.role, text := m.text })

/-- The text of the synthetic fallback message appended when the backend
returned tool calls but no natural-language text (part_001 line 82). -/
def fallbackText (toolCount : Nat) : String :=
  "I\x27ve completed the analysis using " ++ toString toolCount ++
    " tool(s). The results have been processed. Is there anything specific you\x27d like to know about the results?"

/-- The combined tool-call marker text (part_001 line 61): one line per
called function. -/
def toolMarkerText (calls : List ChatFunctionCall) : String :=
  String.intercalate "\n" (calls.map (fun fc => "🔧 " ++ fc.function))

/-- The messages the handler appends after the user message for one chat
turn (part_001 lines 53 to 107).  On success, a non-empty function-call
list contributes one combined tool-call marker message; then the
natural-language response is appended when it is non-blank, and otherwise
a synthetic fallback message is appended provided there was at least one
function call.  An unsuccessful response or a rejected promise appends a
single error message, the rejected case choosing a friendlier wording by
substring classification of the thrown message. -/
def chatTurnMessages (now : Nat) (outcome : ApiOutcome ChatResponse) :
    List ChatMessage :=
  match outcome with
  | .ok resp =>
    if resp.success then
      let toolMsgs : List ChatMessage :=
        if 0 < resp.function_calls.length then
          [{ id := toString now ++ "_tools", role := .model,
             text := toolMarkerText resp.function_calls, isToolCall := true }]
        else []
      let respMsgs : List ChatMessage :=
        if resp.response ≠ "" ∧ jsTrim resp.response ≠ "" then
          [{ id := toString now ++ "_response", role := .model, text := resp.response }]
        else if 0 < resp.function_calls.length then
          [{ id := toString now ++ "_response", role := .model,
             text := fallbackText resp.function_calls.length }]
        else []
      toolMsgs ++ respMsgs
    else
      [{ id := toString now, role := .model,
         text := "Sorry, I encountered an error: " ++ jsOr resp.error "Unknown error" }]
  | .thrown m =>
    let errorMessage :=
      if jsIncludes m "Cannot connect to server" then
        "Cannot connect to the backend server. Please make sure it\x27s running on localhost:8000."
      else if jsIncludes m "timed out" then
        "The request timed out. The operation may be taking longer than expected. Please try again."
      else
        "Sorry, I encountered an error processing that request."
    [{ id := toString now, role := .model, text := errorMessage }]

/-- The chat send handler handleSendMessage (part_001 lines 34 to 112) as
a state transition.  When the trimmed input is empty or a request is
already in flight (isThinking) the handler returns immediately: no state
change and no request.  Otherwise it appends the user message, prepares
the filtered history, issues the request, appends the messages of the
turn according to the outcome, and the finally block clears the thinking
and processing flags; the input was cleared at send time.  The now
parameter stands for Date.now, used only to mint message ids. -/
def handleSendMessage (st : State) (now : Nat) (outcome : ApiOutcome ChatResponse) :
    State × Option ChatRequest :=
  if jsTrim st.input = "" ∨ st.isThinking then (st, none)
  else
    let userMsg : ChatMessage := { id := toString now, role := .user, text := st.input }
    let updatedMessages := st.messages ++ [userMsg]
    let req : ChatRequest := { message := st.input, history := historyForApi updatedMessages }
    ({ messages := updatedMessages ++ chatTurnMessages now outcome
       input := ""
       isThinking := false
       isAgentProcessing := false }, some req)

end Chat

/-! Concrete sample data used to instantiate the theorems below. -/

/-- A sample primer pair, with the pair id and melting temperatures of
the scenario in the specification. -/
def samplePrimerPair : PrimerPair :=
  { pair_id := 0
    left_sequence := "ACGTACGTACGTACGTACGT"
    right_sequence := "TGCATGCATGCATGCATGCA"
    left_tm := 58.2
    right_tm := 59.1
    left_gc := 50
    right_gc := 50
    product_size := 200
    penalty := 0 }

/-- A Primer Design panel state holding a valid 50 bp sequence and a
previously displayed, non-empty results collection. -/
def pdPriorState : PrimerDesignPanel.State :=
  { sequence := List.replicate 50 (Char.toNat 'A')
    optimalTm := 60
    productSizeMin := 100
    productSizeMax := 1000
    results := [samplePrimerPair]
    resultMessage := some "Found 1 primer pair(s)" }

/-- A Primer Design panel state holding a 40 bp sequence, the scenario of
the minimum-length validation property. -/
def pdState40 : PrimerDesignPanel.State :=
  { sequence := List.replicate 40 (Char.toNat 'A')
    optimalTm := 60
    productSizeMin := 100
    productSizeMax := 1000 }

/-- The function-call list of the chat scenario in the specification: a
single design_primers call whose result holds one primer pair with
pair_id 0, left_tm 58.2 and right_tm 59.1 (the record fields the scenario
does not mention take the sample values). -/
def c2ScenarioCalls : List FunctionCall :=
  [{ function := "design_primers"
     result := some { primer_pairs := some [samplePrimerPair] } }]

/-- A chat response of the scenario shape: success, tool calls present,
no natural-language text. -/
def c2ScenarioResponse : Chat.ChatResponse :=
  { success := true
    response := ""
    function_calls := c2ScenarioCalls }

/-- A sample chat message list: the welcome message, a tool-call marker
and an ordinary exchange. -/
def sampleChatMessages : List Chat.ChatMessage :=
  [ { id := "welcome", role := .model, text := "Hello!" }
  , { id := "100", role := .user, text := "design primers please" }
  , { id := "101_tools", role := .model, text := "design_primers", isToolCall := true }
  , { id := "101_response", role := .model, text := "Here are your primers." } ]

/-- A chat state with a request in flight. -/
def sampleThinkingState : Chat.State :=
  { messages := sampleChatMessages
    input := "another question"
    isThinking := true }

/-- A 12-unit sequence used to evaluate the sliding-window plot. -/
def gcWitnessSequence : List Nat :=
  [65, 67, 71, 84, 65, 67, 71, 84, 65, 67, 71, 84]

/-- Sample pie data with a positive total and one dominant slice. -/
def pieDataW : List PieDatum :=
  [ { label := "A", value := 3, color := "#22c55e" }
  , { label := "B", value := 1, color := "#ef4444" } ]

/-- Sample pie data whose values sum to zero. -/
def pieDataZero : List PieDatum :=
  [ { label := "A", value := 2, color := "#22c55e" }
  , { label := "B", value := -2, color := "#ef4444" } ]

/-- A function call whose runtime result record is absent. -/
def fcNoResult : FunctionCall :=
  { function := "design_primers", result := none }

/-- The code units of a lower-case, partly invalid input string acgT!x. -/
def sanitizeSample : List Nat :=
  [97, 99, 103, 84, 33, 120]

/-! Helper lemmas. -/

theorem jsToUpperCode_idem (c : Nat) :
    jsToUpperCode (jsToUpperCode c) = jsToUpperCode c := by
  simp only [jsToUpperCode]
  split_ifs <;> omega

theorem iupacCodes_eq :
    iupacCodes = [65, 84, 71, 67, 78, 82, 89, 83, 87, 75, 77, 66, 68, 72, 86] := by
  decide

theorem iupac_upper_fixed : ∀ c ∈ iupacCodes, jsToUpperCode c = c := by
  rw [iupacCodes_eq]
  intro c hc
  fin_cases hc <;> decide

theorem sanitizeSequence_filter_map (s : List Nat) :
    sanitizeSequence s =
      (s.filter (fun c => iupacCodes.contains (jsToUpperCode c))).map jsToUpperCode := by
  unfold sanitizeSequence
  induction s with
  | nil => rfl
  | cons c t ih =>
    simp only [List.map_cons, List.filter_cons, jsToUpperCode_idem]
    by_cases h : iupacCodes.contains (jsToUpperCode c) = true
    · rw [if_pos h, if_pos h, List.map_cons, ih]
    · rw [if_neg h, if_neg h, ih]

theorem sanitizeSequence_mem_iupac (s : List Nat) :
    ∀ c ∈ sanitizeSequence s, c ∈ iupacCodes := by
  intro c hc
  unfold sanitizeSequence at hc
  obtain ⟨hmem, hp⟩ := List.mem_filter.mp hc
  obtain ⟨a, _, rfl⟩ := List.mem_map.mp hmem
  rw [jsToUpperCode_idem] at hp
  simpa using hp

theorem sanitizeSequence_fixed (l : List Nat) (h : ∀ c ∈ l, c ∈ iupacCodes) :
    sanitizeSequence l = l := by
  unfold sanitizeSequence
  induction l with
  | nil => rfl
  | cons c t ih =>
    have hc : c ∈ iupacCodes := h c (List.mem_cons_self c t)
    have hfix : jsToUpperCode c = c := iupac_upper_fixed c hc
    have ht : ∀ x ∈ t, x ∈ iupacCodes := fun x hx => h x (List.mem_cons_of_mem c hx)
    have hcb : iupacCodes.contains (jsToUpperCode c) = true := by
      rw [hfix]; simpa using hc
    simp only [List.map_cons, List.filter_cons, jsToUpperCode_idem]
    rw [if_pos hcb, hfix, ih ht]

theorem gcLoop_eq_range (sequence : List Nat) (windowSize step : Nat) (hstep : 0 < step) :
    ∀ i, i ≤ sequence.length - windowSize →
      gcLoop sequence windowSize step hstep i =
        (List.range ((sequence.length - windowSize - i) / step + 1)).map
          (fun k => gcWindowPoint sequence windowSize (i + k * step)) := by
  have main : ∀ n i, sequence.length - windowSize - i = n →
      i ≤ sequence.length - windowSize →
      gcLoop sequence windowSize step hstep i =
        (List.range ((sequence.length - windowSize - i) / step + 1)).map
          (fun k => gcWindowPoint sequence windowSize (i + k * step)) := by
    intro n
    induction n using Nat.strong_induction_on with
    | _ n ih =>
      intro i hn hi
      rw [gcLoop, dif_pos hi]
      by_cases h2 : i + step ≤ sequence.length - windowSize
      · have hrec := ih (sequence.length - windowSize - (i + step)) (by omega) (i + step) rfl h2
        rw [hrec]
        have hsteple : step ≤ sequence.length - windowSize - i := by omega
        have hsub : sequence.length - windowSize - (i + step)
            = sequence.length - windowSize - i - step := by omega
        rw [hsub]
        conv_rhs => rw [Nat.div_eq_sub_div hstep hsteple, List.range_succ_eq_map,
          List.map_cons, List.map_map]
        congr 1
        · simp
        · apply List.map_congr_left
          intro a _
          simp only [Function.comp_apply, Nat.succ_eq_add_one]
          congr 1
          ring
      · rw [gcLoop, dif_neg h2]
        have hz : (sequence.length - windowSize - i) / step = 0 :=
          Nat.div_eq_of_lt (by omega)
        rw [hz, show List.range 1 = [0] from rfl]
        simp
  intro i hi
  exact main (sequence.length - windowSize - i) i rfl hi

theorem gcContentPoints_eq_range (sequence : List Nat) (windowSize : Nat)
    (hne : sequence ≠ []) (hws : windowSize ≤ sequence.length) :
    gcContentPoints sequence windowSize =
      (List.range ((sequence.length - windowSize) / (max 1 (windowSize / 4)) + 1)).map
        (fun k => gcWindowPoint sequence windowSize (k * (max 1 (windowSize / 4)))) := by
  unfold gcContentPoints
  rw [if_neg (by push_neg; exact ⟨hne, hws⟩)]
  rw [gcLoop_eq_range sequence windowSize (max 1 (windowSize / 4)) _ 0 (by omega)]
  simp

theorem pieSlicesFrom_sum (total : ℚ) :
    ∀ (l : List PieDatum) (angle : ℚ),
      ((pieSlicesFrom total angle l).map PieSlice.percentage).sum
        = ((l.map PieDatum.value).sum) / total * 100 := by
  intro l
  induction l with
  | nil => intro angle; simp [pieSlicesFrom]
  | cons d t ih =>
    intro angle
    simp only [pieSlicesFrom, List.map_cons, List.sum_cons, ih]
    ring

theorem pieSlicesFrom_showLabel (total : ℚ) :
    ∀ (l : List PieDatum) (angle : ℚ) (s : PieSlice),
      s ∈ pieSlicesFrom total angle l → s.showLabel = decide (5 < s.percentage) := by
  intro l
  induction l with
  | nil => intro angle s hs; simp [pieSlicesFrom] at hs
  | cons d t ih =>
    intro angle s hs
    simp only [pieSlicesFrom, List.mem_cons] at hs
    rcases hs with rfl | hs
    · rfl
    · exact ih _ s hs

/-! Claim theorems. -/

/-- C5: for any input string, the client-side sequence sanitizer removes
every character outside the IUPAC nucleotide alphabet ATGCNRYSWKMBDHV
(case-insensitively) and upper-cases the remaining characters, and it is
idempotent: sanitizing twice equals sanitizing once.  The first conjunct
states the remove-then-upper-case normal form, the second that only
IUPAC letters survive, the third idempotence. -/
theorem sanitizeSequence_spec (s : List Nat) :
    sanitizeSequence s =
      (s.filter (fun c => iupacCodes.contains (jsToUpperCode c))).map jsToUpperCode ∧
    (∀ c ∈ sanitizeSequence s, c ∈ iupacCodes) ∧
    sanitizeSequence (sanitizeSequence s) = sanitizeSequence s :=
  ⟨sanitizeSequence_filter_map s, sanitizeSequence_mem_iupac s,
    sanitizeSequence_fixed (sanitizeSequence s) (sanitizeSequence_mem_iupac s)⟩

/-- Witness for C5: the sanitizer evaluated on the concrete input acgT!x
produces ACGT, only IUPAC letters, and is fixed by a second pass. -/
theorem sanitizeSequence_spec_witness :
    sanitizeSequence sanitizeSample = [65, 67, 71, 84] ∧
    sanitizeSequence (sanitizeSequence sanitizeSample) = sanitizeSequence sanitizeSample := by
  refine ⟨by decide, ?_⟩
  exact (sanitizeSequence_spec sanitizeSample).2.2

/-- C8: submitting a sequence shorter than 50 base pairs to the Primer
Design panel sets the validation error string and returns immediately:
no request is issued and no other state field changes (in particular the
guard fires before the handler clears the previous results). -/
theorem primerDesign_minLength_validation (st : PrimerDesignPanel.State)
    (outcome : ApiOutcome PrimerDesignPanel.Response)
    (h : st.sequence.length < 50) :
    PrimerDesignPanel.handleDesignPrimers st outcome
      = ({ st with error := some "Sequence must be at least 50 base pairs" }, none) := by
  unfold PrimerDesignPanel.handleDesignPrimers
  rw [if_pos (Or.inr h)]

/-- Witness for C8: a 40 bp sequence triggers the validation error and no
request, whatever the network would have answered. -/
theorem primerDesign_minLength_validation_witness :
    PrimerDesignPanel.handleDesignPrimers pdState40 (.thrown "unreachable")
      = ({ pdState40 with error := some "Sequence must be at least 50 base pairs" }, none) :=
  primerDesign_minLength_validation pdState40 (.thrown "unreachable") (by decide)

/-- C10: while a chat request is in flight (isThinking) or the trimmed
input is empty, the chat send handler is a no-op: the state is returned
unchanged and no request is issued, so a second request can never be
started while one is in flight. -/
theorem handleSendMessage_noop (st : Chat.State) (now : Nat)
    (outcome : ApiOutcome Chat.ChatResponse)
    (h : st.isThinking = true ∨ jsTrim st.input = "") :
    Chat.handleSendMessage st now outcome = (st, none) := by
  unfold Chat.handleSendMessage
  rcases h with h | h
  · rw [if_pos (Or.inr h)]
  · rw [if_pos (Or.inl h)]

/-- Witness for C10: a state with a request in flight ignores a further
send, whatever the outcome would have been. -/
theorem handleSendMessage_noop_witness :
    Chat.handleSendMessage sampleThinkingState 999 (.thrown "unreachable")
      = (sampleThinkingState, none) :=
  handleSendMessage_noop sampleThinkingState 999 (.thrown "unreachable") (by decide)

/-- C9: the pie chart renders nothing (returns null) when the data list
is empty or the values sum to zero; the slice percentages and angles,
which divide by the total, are only computed in the remaining case, so
the divisor is never the problematic zero. -/
theorem pieChartSlices_null_guards (data : List PieDatum) :
    (data = [] → pieChartSlices data = none) ∧
    ((data.map PieDatum.value).sum = 0 → pieChartSlices data = none) := by
  constructor
  · intro h
    subst h
    rfl
  · intro h
    unfold pieChartSlices
    by_cases hl : data.length = 0
    · rw [if_pos hl]
    · rw [if_neg hl, if_pos h]

/-- Witness for C9: the empty data list and a list whose values cancel to
zero both render nothing. -/
theorem pieChartSlices_null_guards_witness :
    pieChartSlices [] = none ∧ pieChartSlices pieDataZero = none :=
  ⟨(pieChartSlices_null_guards []).1 rfl,
    (pieChartSlices_null_guards pieDataZero).2 (by norm_num [pieDataZero])⟩

/-- C6: for every non-empty pie chart input with positive total, the
computed slice percentages sum to exactly 100 (the arithmetic is exact
over the rationals, hence within floating rounding of the JavaScript
computation), and a slice percentage label is omitted (showLabel false)
exactly when the slice share is at most 5 percent. -/
theorem pieChartSlices_percentages (data : List PieDatum)
    (hne : data ≠ []) (hpos : 0 < (data.map PieDatum.value).sum) :
    ∃ slices, pieChartSlices data = some slices ∧
      (slices.map PieSlice.percentage).sum = 100 ∧
      ∀ s ∈ slices, (s.showLabel = false ↔ s.percentage ≤ 5) := by
  have hlen : ¬data.length = 0 := by simpa [List.length_eq_zero] using hne
  have htot : (data.map PieDatum.value).sum ≠ 0 := ne_of_gt hpos
  refine ⟨pieSlicesFrom ((data.map PieDatum.value).sum) (-90) data, ?_, ?_, ?_⟩
  · simp only [pieChartSlices]
    rw [if_neg hlen, if_neg htot]
  · rw [pieSlicesFrom_sum, div_self htot, one_mul]
  · intro s hs
    rw [pieSlicesFrom_showLabel _ data (-90) s hs]
    simp only [decide_eq_false_iff_not, not_lt]

/-- Witness for C6: the concrete two-slice input with values 3 and 1 has
slices, their percentages sum to 100, and labels follow the 5 percent
rule. -/
theorem pieChartSlices_percentages_witness :
    ∃ slices, pieChartSlices pieDataW = some slices ∧
      (slices.map PieSlice.percentage).sum = 100 ∧
      ∀ s ∈ slices, (s.showLabel = false ↔ s.percentage ≤ 5) :=
  pieChartSlices_percentages pieDataW (by decide) (by norm_num [pieDataW])

/-- C7: the chart dispatcher emits no chart for a call with an absent
result record or an error result, and none for a function name outside
the four recognized names; a design_primers chart carries at most the
first 5 primer pairs and a find_restriction_sites chart at most the
first 8 enzymes. -/
theorem chartsFor_dispatch (fc : FunctionCall) :
    (fc.result = none → chartsFor fc = []) ∧
    (∀ r, fc.result = some r → r.error = true → chartsFor fc = []) ∧
    (fc.function ≠ "design_primers" → fc.function ≠ "find_restriction_sites" →
      fc.function ≠ "fetch_ncbi_sequence" → fc.function ≠ "analyze_primer" →
      chartsFor fc = []) ∧
    (∀ r pairs, fc.result = some r → r.error = false →
      fc.function = "design_primers" → r.primer_pairs = some pairs → pairs ≠ [] →
      chartsFor fc
          = [Chart.bar "Primer Tm Comparison" "Tm (°C)" true ((pairs.take 5).map primerTmBar)] ∧
      ((pairs.take 5).map primerTmBar).length ≤ 5) ∧
    (∀ r es, fc.result = some r → r.error = false →
      fc.function = "find_restriction_sites" → r.enzymes = some es → es ≠ [] →
      chartsFor fc
          = [Chart.bar "Cut Frequency" "Cuts" false ((es.take 8).map cutFrequencyBar)] ∧
      ((es.take 8).map cutFrequencyBar).length ≤ 8) := by
  refine ⟨?_, ?_, ?_, ?_, ?_⟩
  · intro h
    simp [chartsFor, h]
  · intro r hr he
    simp [chartsFor, hr, he]
  · intro h1 h2 h3 h4
    unfold chartsFor
    split
    · rfl
    · split
      · rfl
      · split <;> simp_all
  · intro r pairs hr he hf hp hne
    constructor
    · simp [chartsFor, hr, he, hf, hp, List.length_pos.mpr hne]
    · simp only [List.length_map, List.length_take]
      omega
  · intro r es hr he hf hp hne
    constructor
    · simp [chartsFor, hr, he, hf, hp, List.length_pos.mpr hne]
    · simp only [List.length_map, List.length_take]
      omega

/-- Witness for C7: a design_primers call whose result record is absent
produces no chart. -/
theorem chartsFor_dispatch_witness : chartsFor fcNoResult = [] :=
  (chartsFor_dispatch fcNoResult).1 rfl

/-- C3: the history prepared for the chat API contains only entries
derived from messages that are neither flagged as tool calls nor carry
the id welcome, and every such message of the current list appears in the
history as its role and text projection. -/
theorem historyForApi_excludes (msgs : List Chat.ChatMessage) :
    (∀ e ∈ Chat.historyForApi msgs,
      ∃ m, m ∈ msgs ∧ m.isToolCall = false ∧ m.id ≠ "welcome" ∧
        e = { role := m.role, text := m.text }) ∧
    (∀ m ∈ msgs, m.isToolCall = false → m.id ≠ "welcome" →
      ({ role := m.role, text := m.text } : Chat.HistoryEntry) ∈ Chat.historyForApi msgs) := by
  constructor
  · intro e he
    unfold Chat.historyForApi at he
    obtain ⟨m, hm, rfl⟩ := List.mem_map.mp he
    obtain ⟨hmem, hp⟩ := List.mem_filter.mp hm
    rw [Bool.and_eq_true, Bool.not_eq_true'] at hp
    refine ⟨m, hmem, hp.1, ?_, rfl⟩
    simpa using hp.2
  · intro m hm h1 h2
    unfold Chat.historyForApi
    exact List.mem_map.mpr ⟨m, List.mem_filter.mpr ⟨hm, by simp [h1, h2]⟩, rfl⟩

/-- Witness for C3: in the sample message list the ordinary user message
appears in the prepared history as its projection. -/
theorem historyForApi_excludes_witness :
    ({ role := .user, text := "design primers please" } : Chat.HistoryEntry)
      ∈ Chat.historyForApi sampleChatMessages :=
  (historyForApi_excludes sampleChatMessages).2
    { id := "100", role := .user, text := "design primers please" }
    (by simp [sampleChatMessages]) rfl (by decide)

/-- C2: for a successful chat response with a non-empty function-call
list and blank (empty or whitespace-only) response text, the handler
appends exactly one conversational (non-tool-call) message for the turn,
and it is the synthetic fallback message; the combined tool-call marker
appended alongside it is flagged isToolCall and rendered as a marker, not
as a conversational message.  For the scenario function-call payload (one
design_primers call with one primer pair) the chart dispatcher renders
exactly one chart. -/
theorem chatTurn_fallback (now : Nat) (resp : Chat.ChatResponse)
    (hs : resp.success = true) (hfc : resp.function_calls ≠ [])
    (ht : jsTrim resp.response = "") :
    ((Chat.chatTurnMessages now (.ok resp)).filter (fun m => !m.isToolCall)).map
        Chat.ChatMessage.text = [Chat.fallbackText resp.function_calls.length] ∧
    ((Chat.chatTurnMessages now (.ok resp)).filter (fun m => !m.isToolCall)).length = 1 ∧
    (chartRendererCharts c2ScenarioCalls).length = 1 := by
  have hlen : 0 < resp.function_calls.length := List.length_pos.mpr hfc
  have hcond : ¬(resp.response ≠ "" ∧ jsTrim resp.response ≠ "") := fun h => h.2 ht
  refine ⟨?_, ?_, ?_⟩
  · simp [Chat.chatTurnMessages, hs, hcond, hlen]
  · simp [Chat.chatTurnMessages, hs, hcond, hlen]
  · rfl

/-- Witness for C2: the scenario response (success, one design_primers
call, empty text) yields exactly one conversational message. -/
theorem chatTurn_fallback_witness :
    ((Chat.chatTurnMessages 0 (.ok c2ScenarioResponse)).filter
        (fun m => !m.isToolCall)).length = 1 :=
  (chatTurn_fallback 0 c2ScenarioResponse rfl (by decide) rfl).2.1

/-- Counterexample to C4 as stated: for the empty sequence and window
size 0 the length is not below the window size, so the claimed formula
floor((length - windowSize) / step) + 1 demands one point, but the
component returns null (no points) because the empty sequence is falsy. -/
theorem gcContentPoints_counterexample :
    ¬(List.length ([] : List Nat) < 0) ∧
    (gcContentPoints ([] : List Nat) 0).length
      ≠ (List.length ([] : List Nat) - 0) / (max 1 (0 / 4)) + 1 := by
  constructor
  · decide
  · unfold gcContentPoints
    rw [if_pos (Or.inl rfl)]
    decide

/-- C4 (amended): the sliding-window GC plot produces no points when the
sequence is empty or shorter than the window; otherwise, with step
max(1, floor(windowSize / 4)), it produces exactly
floor((length - windowSize) / step) + 1 points, and the k-th point is
positioned at the midpoint of its window, window start plus half the
window size. -/
theorem gcContentPoints_spec (sequence : List Nat) (windowSize : Nat) :
    (sequence = [] ∨ sequence.length < windowSize →
      gcContentPoints sequence windowSize = []) ∧
    (sequence ≠ [] → windowSize ≤ sequence.length →
      (gcContentPoints sequence windowSize).length
          = (sequence.length - windowSize) / (max 1 (windowSize / 4)) + 1 ∧
      ∀ (k : Nat) (hk : k < (gcContentPoints sequence windowSize).length),
        ((gcContentPoints sequence windowSize).get ⟨k, hk⟩).1
            = (k : ℚ) * ((max 1 (windowSize / 4) : Nat) : ℚ) + (windowSize : ℚ) / 2) := by
  constructor
  · intro h
    unfold gcContentPoints
    rw [if_pos h]
  · intro hne hws
    have hchar := gcContentPoints_eq_range sequence windowSize hne hws
    constructor
    · rw [hchar]
      simp
    · intro k hk
      simp only [hchar, List.get_eq_getElem, List.getElem_map, List.getElem_range]
      unfold gcWindowPoint
      push_cast
      ring

/-- Witness for C4: the 12-unit sample with window 8 has step 2 and
exactly (12 - 8) / 2 + 1 = 3 points. -/
theorem gcContentPoints_spec_witness :
    (gcContentPoints gcWitnessSequence 8).length = (12 - 8) / (max 1 (8 / 4)) + 1 :=
  ((gcContentPoints_spec gcWitnessSequence 8).2 (by decide) (by decide)).1

/-- Counterexample to C1 as stated: starting from a Primer Design state
with a valid 50 bp sequence and a non-empty previously displayed results
collection, a failed API call leaves the panel with an empty results
collection, not with the results it displayed before the submit: the
handler clears the results before issuing the request. -/
theorem panelFailure_counterexample :
    (PrimerDesignPanel.handleDesignPrimers pdPriorState (.thrown "Network error")).1.results
      ≠ pdPriorState.results := by
  decide

/-- C1 (amended): for every tool panel (Primer Design, Restriction
Analyzer, NCBI Search, Paper Search, Gibson Assembly), when the submit
handler passes validation and the API call fails (rejected promise, or
unsuccessful response where the handler checks one), the handler sets a
user-facing error string and the results collection ends up empty: the
handler cleared it when the submit began, so the previous results are not
preserved. -/
theorem panelsFailure_set_error_clear_results :
    (∀ (st : PrimerDesignPanel.State) (m : String),
      ¬(st.sequence = [] ∨ st.sequence.length < 50) →
      (PrimerDesignPanel.handleDesignPrimers st (.thrown m)).1.error.isSome = true ∧
      (PrimerDesignPanel.handleDesignPrimers st (.thrown m)).1.results = []) ∧
    (∀ (st : PrimerDesignPanel.State) (r : PrimerDesignPanel.Response),
      ¬(st.sequence = [] ∨ st.sequence.length < 50) → r.success = false →
      (PrimerDesignPanel.handleDesignPrimers st (.ok r)).1.error.isSome = true ∧
      (PrimerDesignPanel.handleDesignPrimers st (.ok r)).1.results = []) ∧
    (∀ (st : RestrictionPanel.State) (m : String),
      ¬(st.sequence = [] ∨ st.sequence.length < 6) →
      (RestrictionPanel.handleFindSites st (.thrown m)).1.error.isSome = true ∧
      (RestrictionPanel.handleFindSites st (.thrown m)).1.results = []) ∧
    (∀ (st : NCBISearchPanel.State) (m : String), jsTrim st.query ≠ "" →
      (NCBISearchPanel.handleSearch st (.thrown m)).1.error.isSome = true ∧
      (NCBISearchPanel.handleSearch st (.thrown m)).1.searchResults = [] ∧
      (NCBISearchPanel.handleSearch st (.thrown m)).1.fetchedSequence = none) ∧
    (∀ (st : NCBISearchPanel.State) (r : NCBISearchPanel.Response), jsTrim st.query ≠ "" →
      r.success = false →
      (NCBISearchPanel.handleSearch st (.ok r)).1.error.isSome = true ∧
      (NCBISearchPanel.handleSearch st (.ok r)).1.searchResults = [] ∧
      (NCBISearchPanel.handleSearch st (.ok r)).1.fetchedSequence = none) ∧
    (∀ (st : PaperSearchPanel.State) (m : String), jsTrim st.query ≠ "" →
      (PaperSearchPanel.handleSearch st (.thrown m)).1.error.isSome = true ∧
      (PaperSearchPanel.handleSearch st (.thrown m)).1.results = []) ∧
    (∀ (st : PaperSearchPanel.State) (r : PaperSearchPanel.Response), jsTrim st.query ≠ "" →
      r.success = false →
      (PaperSearchPanel.handleSearch st (.ok r)).1.error.isSome = true ∧
      (PaperSearchPanel.handleSearch st (.ok r)).1.results = []) ∧
    (∀ (st : GibsonPanel.State) (m : String),
      ¬(st.vectorSeq = [] ∨ st.vectorSeq.length < 20) →
      ¬(st.insertSeq = [] ∨ st.insertSeq.length < 20) →
      (GibsonPanel.handleDesignPrimers st (.thrown m)).1.error.isSome = true ∧
      (GibsonPanel.handleDesignPrimers st (.thrown m)).1.result = none) := by
  refine ⟨?_, ?_, ?_, ?_, ?_, ?_, ?_, ?_⟩
  · intro st m h
    simp [PrimerDesignPanel.handleDesignPrimers, h]
  · intro st r h hr
    simp [PrimerDesignPanel.handleDesignPrimers, h, hr]
  · intro st m h
    simp [RestrictionPanel.handleFindSites, h]
  · intro st m h
    simp [NCBISearchPanel.handleSearch, h]
  · intro st r h hr
    simp [NCBISearchPanel.handleSearch, h, hr]
  · intro st m h
    simp [PaperSearchPanel.handleSearch, h]
  · intro st r h hr
    simp [PaperSearchPanel.handleSearch, h, hr]
  · intro st m h1 h2
    simp [GibsonPanel.handleDesignPrimers, h1, h2]

/-- Witness for C1 (amended): the concrete Primer Design state with prior
results ends a failed submit with an error set and an empty results
collection. -/
theorem panelsFailure_set_error_clear_results_witness :
    (PrimerDesignPanel.handleDesignPrimers pdPriorState (.thrown "boom")).1.error.isSome = true ∧
    (PrimerDesignPanel.handleDesignPrimers pdPriorState (.thrown "boom")).1.results = [] :=
  panelsFailure_set_error_clear_results.1 pdPriorState "boom" (by decide)

end UniBio
